import Mathlib

/-!
# Verification of the preface-globe-navigator coordinate / geometry / ephemeris math

Shallow embedding of the numeric core of the repository:

* the functions of the coordinate mapper module, named getLatLong and
  calculateCameraOrientation in the source;
* the cube-to-sphere vertex remap of Globe.createSphereFromCube;
* the solar ephemeris functions of the Sun class: calculateSunPosition,
  dateToJulianDate and wrapDegrees.

JavaScript numbers are idealised as real numbers; the Julian-date computation,
which is exact rational arithmetic on the inputs that matter here, is embedded
over the rationals so that it can be evaluated by norm_num.  Operations that
produce NaN in JavaScript (Math.asin outside the interval from -1 to 1,
Math.sqrt of a negative, division by zero) are modelled with Option, none
standing for NaN.  Math.atan2 y x is total in JavaScript (it sends the origin
to 0) and is modelled by Complex.arg of x + y*i, which agrees with it on every
input that does not involve signed zeros and also sends the origin to 0.
-/

namespace GlobeNav

noncomputable section

open Real

/-- Model of THREE.MathUtils.degToRad: multiply by pi over 180. -/
def degToRad (degrees : ℝ) : ℝ := degrees * (Real.pi / 180)

/-- Model of THREE.MathUtils.radToDeg: multiply by 180 over pi. -/
def radToDeg (radians : ℝ) : ℝ := radians * (180 / Real.pi)

/-- Truncation toward zero, as used by the JavaScript remainder operator. -/
def jsTrunc (x : ℝ) : ℤ := if 0 ≤ x then ⌊x⌋ else ⌈x⌉

/-- Model of the JavaScript remainder a % b (for nonzero b): the remainder of
truncated division, carrying the sign of the dividend. -/
def jsRem (a b : ℝ) : ℝ := a - b * jsTrunc (a / b)

/-- Model of Math.asin: NaN (here none) outside the closed interval from -1
to 1, arcsin inside it. -/
def jsAsin (x : ℝ) : Option ℝ := if x < -1 ∨ 1 < x then none else some (Real.arcsin x)

/-- Model of Math.atan2 y x as the argument of the complex number x + y*i. -/
def jsAtan2 (y x : ℝ) : ℝ := Complex.arg (x + y * Complex.I)

/-- Model of Math.sqrt: NaN (here none) on negatives. -/
def jsSqrt (x : ℝ) : Option ℝ := if x < 0 then none else some (Real.sqrt x)

/-- Division producing none where JavaScript would produce a non-finite
value. -/
def jsDiv (a b : ℝ) : Option ℝ := if b = 0 then none else some (a / b)

/-- Model of a THREE.Vector3: a triple of numbers. -/
structure Vec3 where
  x : ℝ
  y : ℝ
  z : ℝ

/-- Model of THREE.Vector3.length: Math.sqrt of x*x + y*y + z*z. -/
def Vec3.length (v : Vec3) : Option ℝ := jsSqrt (v.x * v.x + v.y * v.y + v.z * v.z)

/-- Model of THREE.Vector3.normalize: divide each component by the scalar
`length() || 1`.  The guard turns a zero length into a division by one, so the
zero vector is left unchanged rather than becoming NaN. -/
def Vec3.normalize (v : Vec3) : Option Vec3 :=
  v.length.bind fun l =>
    (jsDiv v.x (if l = 0 then 1 else l)).bind fun nx =>
      (jsDiv v.y (if l = 0 then 1 else l)).bind fun ny =>
        (jsDiv v.z (if l = 0 then 1 else l)).bind fun nz =>
          some ⟨nx, ny, nz⟩

/-- Model of THREE.Vector3.crossVectors a b. -/
def cross3 (a b : Vec3) : Vec3 :=
  ⟨a.y * b.z - a.z * b.y, a.z * b.x - a.x * b.z, a.x * b.y - a.y * b.x⟩

/-! ## Coordinate mapper (file part_004)

The function getLatLong is what the spec calls pointToGeoCoordinate, and
calculateCameraOrientation is what the spec calls
geoCoordinateToCameraOrientation. -/

/-- Embedding of getLatLong: latitude is asin of point.y, longitude is the
negated atan2 of point.x and point.z, both converted to degrees.  The latitude
is none when Math.asin would return NaN. -/
def getLatLong (point : Vec3) : Option ℝ × ℝ :=
  ((jsAsin point.y).map radToDeg, radToDeg (-(jsAtan2 point.x point.z)))

/-- Line 15 of calculateCameraOrientation:
the latitude is replaced by Math.max(-90, Math.min(90, latitude)). -/
def clampLat (latitude : ℝ) : ℝ := max (-90) (min 90 latitude)

/-- Line 16 of calculateCameraOrientation:
the longitude is replaced by ((longitude + 180) % 360) - 180, with the
JavaScript remainder. -/
def wrapLon (longitude : ℝ) : ℝ := jsRem (longitude + 180) 360 - 180

/-- Step 1 of calculateCameraOrientation (section 4.1 of the spec): the
outward normal obtained from latitude and longitude in degrees, namely
(cos lat * sin lon, sin lat, cos lat * cos lon). -/
def normalFromGeo (latitude longitude : ℝ) : Vec3 :=
  ⟨Real.cos (degToRad latitude) * Real.sin (degToRad longitude),
   Real.sin (degToRad latitude),
   Real.cos (degToRad latitude) * Real.cos (degToRad longitude)⟩

/-- Embedding of calculateCameraOrientation.  The rotation matrix is assembled
in the source with Matrix3.set applied to the rows right, normal, forward;
the column-major elements array of THREE.Matrix3 therefore satisfies
elements[2] = forward.x, elements[8] = forward.z, elements[5] = forward.y,
elements[3] = right.y and elements[4] = normal.y, and the three atan2
extractions below are written with those entries inlined. -/
def calculateCameraOrientation (latitude longitude : ℝ) : Option (ℝ × ℝ × ℝ) :=
  ((normalFromGeo (clampLat latitude) (wrapLon longitude)).normalize).bind fun normal =>
    ((cross3 ⟨0, 1, 0⟩ normal).normalize).bind fun right =>
      ((cross3 normal right).normalize).bind fun recalculatedForward =>
        (jsSqrt (right.y ^ 2 + normal.y ^ 2)).bind fun s =>
          some (jsAtan2 recalculatedForward.x recalculatedForward.z,
                jsAtan2 (-recalculatedForward.y) s,
                jsAtan2 right.y normal.y)

/-! ## Cube-to-sphere geometry builder (Globe.createSphereFromCube) -/

/-- The Phil Nowell cube-to-sphere remap applied to one vertex, lines 46 to 53
of sphere.js: every component is computed from the same pre-remap x, y, z. -/
def mapCubeToSphere (x y z : ℝ) : ℝ × ℝ × ℝ :=
  let x2 := x * x
  let y2 := y * y
  let z2 := z * z
  (x * Real.sqrt (1 - y2 / 2 - z2 / 2 + y2 * z2 / 3),
   y * Real.sqrt (1 - z2 / 2 - x2 / 2 + z2 * x2 / 3),
   z * Real.sqrt (1 - x2 / 2 - y2 / 2 + x2 * y2 / 3))

/-- The vertex loop of createSphereFromCube (lines 35 to 54 of sphere.js) over
an abstract list of vertex triples: for each vertex the original position is
saved into originalPositions and the live position is overwritten with the
remapped one.  Returns the pair (positions after the loop, originalPositions). -/
def processVertices : List (ℝ × ℝ × ℝ) → List (ℝ × ℝ × ℝ) × List (ℝ × ℝ × ℝ)
  | [] => ([], [])
  | (x, y, z) :: rest =>
    let tail := processVertices rest
    (mapCubeToSphere x y z :: tail.1, (x, y, z) :: tail.2)

/-! ## Solar position calculator (class Sun in sphere.js) -/

/-- Embedding of Sun.wrapDegrees (lines 511 to 514 of sphere.js): the input is
reduced with the JavaScript remainder by 360, and 360 is subtracted when the
result exceeds 180. -/
def wrapDegrees (degrees : ℝ) : ℝ :=
  if jsRem degrees 360 > 180 then jsRem degrees 360 - 360 else jsRem degrees 360

/-- The constant Sun.CONFIG.EARTH.OBLIQUITY. -/
def OBLIQUITY : ℝ := 23.439

/-- Mean anomaly g of the Sun as a function of d, the days since J2000. -/
def sunMeanAnomaly (d : ℝ) : ℝ := wrapDegrees (357.529 + 0.98560028 * d)

/-- Mean longitude q of the Sun. -/
def sunMeanLongitude (d : ℝ) : ℝ := wrapDegrees (280.459 + 0.98564736 * d)

/-- Apparent ecliptic longitude l of the Sun. -/
def sunEclipticLongitude (d : ℝ) : ℝ :=
  wrapDegrees (sunMeanLongitude d + 1.915 * Real.sin (degToRad (sunMeanAnomaly d))
    + 0.020 * Real.sin (2 * degToRad (sunMeanAnomaly d)))

/-- Mean obliquity of the ecliptic, line 428 of sphere.js:
e = 23.439 - 0.00000036 * d. -/
def meanObliquity (d : ℝ) : ℝ := OBLIQUITY - 0.00000036 * d

/-- Declination, line 433 of sphere.js: dec = asin(sin(eRad) * sin(lRad)).
The argument of asin is a product of sines, hence always between -1 and 1,
where Math.asin and Real.arcsin agree; the pure arcsin is therefore a faithful
model here. -/
def sunDeclination (d : ℝ) : ℝ :=
  Real.arcsin (Real.sin (degToRad (meanObliquity d)) * Real.sin (degToRad (sunEclipticLongitude d)))

/-- The sub-solar latitude returned by calculateSunPosition, lines 442 to 444
of sphere.js: latitude = radToDeg(dec). -/
def sunLatitude (d : ℝ) : ℝ := radToDeg (sunDeclination d)

end

/-- Embedding of Sun.dateToJulianDate (lines 487 to 503 of sphere.js), over
exact rational arithmetic; the floors are Math.floor. -/
def dateToJulianDate (year month day hour minute second : ℤ) : ℚ :=
  let y : ℤ := if month > 2 then year else year - 1
  let m : ℤ := if month > 2 then month else month + 12
  let d : ℚ := (day : ℚ) + (hour : ℚ) / 24 + (minute : ℚ) / 1440 + (second : ℚ) / 86400
  let a : ℤ := ⌊(y : ℚ) / 100⌋
  let b : ℤ := 2 - a + ⌊(a : ℚ) / 4⌋
  (⌊(365.25 : ℚ) * ((y : ℚ) + 4716)⌋ : ℚ) + (⌊(30.6001 : ℚ) * ((m : ℚ) + 1)⌋ : ℚ)
    + d + (b : ℚ) - 1524.5

/-! ## Helper lemmas -/

/-- Math.sqrt never produces NaN on a nonnegative argument. -/
theorem jsSqrt_of_nonneg {x : ℝ} (h : 0 ≤ x) : jsSqrt x = some (Real.sqrt x) := by
  rw [jsSqrt, if_neg (not_lt.2 h)]

/-- The guarded normalize of THREE.Vector3 is defined on every vector. -/
theorem Vec3.normalize_isSome (v : Vec3) : ∃ w, v.normalize = some w := by
  have hnn : (0 : ℝ) ≤ v.x * v.x + v.y * v.y + v.z * v.z :=
    add_nonneg (add_nonneg (mul_self_nonneg _) (mul_self_nonneg _)) (mul_self_nonneg _)
  have hd : (if Real.sqrt (v.x * v.x + v.y * v.y + v.z * v.z) = 0 then (1 : ℝ)
      else Real.sqrt (v.x * v.x + v.y * v.y + v.z * v.z)) ≠ 0 := by
    split
    · norm_num
    · assumption
  rw [Vec3.normalize, Vec3.length, jsSqrt_of_nonneg hnn, Option.some_bind,
    jsDiv, if_neg hd, Option.some_bind, jsDiv, if_neg hd, Option.some_bind,
    jsDiv, if_neg hd, Option.some_bind]
  exact ⟨_, rfl⟩

/-- The whole camera-orientation pipeline is defined on every input: all three
normalizations are guarded and the square root receives a sum of squares. -/
theorem camera_isSome (latitude longitude : ℝ) :
    (calculateCameraOrientation latitude longitude).isSome = true := by
  rw [calculateCameraOrientation]
  obtain ⟨n, hn⟩ := Vec3.normalize_isSome (normalFromGeo (clampLat latitude) (wrapLon longitude))
  rw [hn, Option.some_bind]
  obtain ⟨r, hr⟩ := Vec3.normalize_isSome (cross3 ⟨0, 1, 0⟩ n)
  rw [hr, Option.some_bind]
  obtain ⟨f, hf⟩ := Vec3.normalize_isSome (cross3 n r)
  rw [hf, Option.some_bind]
  rw [jsSqrt_of_nonneg (by positivity), Option.some_bind, Option.isSome_some]

/-- The JavaScript remainder by 360 lies strictly between -360 and 360. -/
theorem jsRem_360_mem (x : ℝ) : jsRem x 360 ∈ Set.Ioo (-360 : ℝ) 360 := by
  unfold jsRem jsTrunc
  rcases le_or_lt 0 (x / 360) with h | h
  · rw [if_pos h]
    have h1 : (⌊x / 360⌋ : ℝ) ≤ x / 360 := Int.floor_le _
    have h2 : x / 360 < ⌊x / 360⌋ + 1 := Int.lt_floor_add_one _
    constructor <;> nlinarith [Int.floor_nonneg.2 h]
  · rw [if_neg (not_le.2 h)]
    have h1 : x / 360 ≤ (⌈x / 360⌉ : ℝ) := Int.le_ceil _
    have h2 : (⌈x / 360⌉ : ℝ) - 1 < x / 360 := by
      have := Int.ceil_lt_add_one (x / 360)
      linarith
    constructor <;> nlinarith

/-- Inputs already strictly between -360 and 360 are fixed by the JavaScript
remainder by 360. -/
theorem jsRem_360_self {x : ℝ} (h1 : -360 < x) (h2 : x < 360) : jsRem x 360 = x := by
  unfold jsRem jsTrunc
  rcases le_or_lt 0 (x / 360) with h | h
  · rw [if_pos h]
    have hf : ⌊x / 360⌋ = 0 := by
      rw [Int.floor_eq_zero_iff]
      exact ⟨h, (div_lt_one (by norm_num : (0 : ℝ) < 360)).2 h2⟩
    rw [hf]
    push_cast
    ring
  · rw [if_neg (not_le.2 h)]
    have hc : ⌈x / 360⌉ = 0 := by
      rw [Int.ceil_eq_zero_iff]
      exact ⟨(lt_div_iff₀ (by norm_num : (0 : ℝ) < 360)).2 (by linarith), le_of_lt h⟩
    rw [hc]
    push_cast
    ring

/-- The actual range of wrapDegrees: the half-open interval from -360
(excluded) to 180 (included). -/
theorem wrapDegrees_mem (x : ℝ) : wrapDegrees x ∈ Set.Ioc (-360 : ℝ) 180 := by
  unfold wrapDegrees
  obtain ⟨h1, h2⟩ := jsRem_360_mem x
  split <;> constructor <;> linarith

/-- Converting degrees to radians and back is the identity. -/
theorem radToDeg_degToRad (t : ℝ) : radToDeg (degToRad t) = t := by
  rw [radToDeg, degToRad]
  field_simp

/-- Core estimate for the declination: arcsin of sin e times sin l is no
larger in magnitude than e. -/
theorem abs_arcsin_sin_mul_sin_le (e l : ℝ) :
    |Real.arcsin (Real.sin e * Real.sin l)| ≤ |e| := by
  rcases le_or_lt |e| (Real.pi / 2) with he | he
  · have hs0 : 0 ≤ Real.sin |e| :=
      Real.sin_nonneg_of_nonneg_of_le_pi (abs_nonneg e) (by linarith [Real.pi_pos])
    have habs : |Real.sin e| = Real.sin |e| := by
      have h1 : |Real.sin e| = abs (Real.sin (abs e)) := by
        rcases abs_cases e with ⟨h, _⟩ | ⟨h, _⟩
        · rw [h]
        · rw [h, Real.sin_neg, abs_neg]
      rw [h1, abs_of_nonneg hs0]
    have habs_l : |Real.sin l| ≤ 1 :=
      abs_le.2 ⟨Real.neg_one_le_sin l, Real.sin_le_one l⟩
    have hu : |Real.sin e * Real.sin l| ≤ Real.sin |e| := by
      rw [abs_mul, ← habs]
      calc |Real.sin e| * |Real.sin l| ≤ |Real.sin e| * 1 :=
            mul_le_mul_of_nonneg_left habs_l (abs_nonneg _)
        _ = |Real.sin e| := mul_one _
    have hle := abs_le.1 hu
    have harc : Real.arcsin (Real.sin |e|) = |e| :=
      Real.arcsin_sin (by linarith [abs_nonneg e, Real.pi_pos]) he
    have h2 : Real.arcsin (Real.sin e * Real.sin l) ≤ |e| :=
      calc Real.arcsin (Real.sin e * Real.sin l) ≤ Real.arcsin (Real.sin |e|) :=
            Real.monotone_arcsin hle.2
        _ = |e| := harc
    have h3 : -|e| ≤ Real.arcsin (Real.sin e * Real.sin l) :=
      calc -|e| = Real.arcsin (-Real.sin |e|) := by rw [Real.arcsin_neg, harc]
        _ ≤ Real.arcsin (Real.sin e * Real.sin l) := Real.monotone_arcsin hle.1
    exact abs_le.2 ⟨h3, h2⟩
  · have h1 := Real.arcsin_le_pi_div_two (Real.sin e * Real.sin l)
    have h2 := Real.neg_pi_div_two_le_arcsin (Real.sin e * Real.sin l)
    exact le_of_lt (lt_of_le_of_lt (abs_le.2 ⟨by linarith, by linarith⟩) he)

/-- Degree-scaled version of the declination estimate. -/
theorem radToDeg_arcsin_le (e l : ℝ) :
    |radToDeg (Real.arcsin (Real.sin (degToRad e) * Real.sin (degToRad l)))| ≤ |e| := by
  have key := abs_arcsin_sin_mul_sin_le (degToRad e) (degToRad l)
  have hd : |degToRad e| = |e| * (Real.pi / 180) := by
    rw [degToRad, abs_mul, abs_of_pos (by positivity : (0 : ℝ) < Real.pi / 180)]
  rw [hd] at key
  rw [radToDeg, abs_mul, abs_of_pos (by positivity : (0 : ℝ) < 180 / Real.pi)]
  calc |Real.arcsin (Real.sin (degToRad e) * Real.sin (degToRad l))| * (180 / Real.pi)
      ≤ (|e| * (Real.pi / 180)) * (180 / Real.pi) :=
        mul_le_mul_of_nonneg_right key (by positivity)
    _ = |e| := by
        field_simp

/-- Full description of the round trip on the open rectangle of geographic
coordinates: the latitude comes back unchanged and the longitude comes back
negated, because getLatLong negates its atan2 while the forward normal
formula does not. -/
theorem getLatLong_normalFromGeo (lat lon : ℝ) (h1 : -90 < lat) (h2 : lat < 90)
    (h3 : -180 < lon) (h4 : lon < 180) :
    getLatLong (normalFromGeo lat lon) = (some lat, -lon) := by
  have hpi := Real.pi_pos
  have hlat1 : -(Real.pi / 2) < degToRad lat := by
    rw [degToRad]
    nlinarith [mul_pos (by linarith : (0 : ℝ) < lat + 90) Real.pi_pos]
  have hlat2 : degToRad lat < Real.pi / 2 := by
    rw [degToRad]
    nlinarith [mul_pos (by linarith : (0 : ℝ) < 90 - lat) Real.pi_pos]
  have hlon1 : -Real.pi < degToRad lon := by
    rw [degToRad]
    nlinarith [mul_pos (by linarith : (0 : ℝ) < lon + 180) Real.pi_pos]
  have hlon2 : degToRad lon < Real.pi := by
    rw [degToRad]
    nlinarith [mul_pos (by linarith : (0 : ℝ) < 180 - lon) Real.pi_pos]
  have hcos : 0 < Real.cos (degToRad lat) :=
    Real.cos_pos_of_mem_Ioo ⟨hlat1, hlat2⟩
  have hsin1 : -1 ≤ Real.sin (degToRad lat) := Real.neg_one_le_sin _
  have hsin2 : Real.sin (degToRad lat) ≤ 1 := Real.sin_le_one _
  unfold getLatLong normalFromGeo
  simp only [Prod.mk.injEq]
  constructor
  · rw [jsAsin, if_neg (by push_neg; exact ⟨hsin1, hsin2⟩)]
    rw [Option.map_some']
    rw [Real.arcsin_sin (le_of_lt hlat1) (le_of_lt hlat2), radToDeg_degToRad]
  · have harg : jsAtan2 (Real.cos (degToRad lat) * Real.sin (degToRad lon))
        (Real.cos (degToRad lat) * Real.cos (degToRad lon)) = degToRad lon := by
      rw [jsAtan2]
      have hre : ((Real.cos (degToRad lat) * Real.cos (degToRad lon) : ℝ) : ℂ)
          + ((Real.cos (degToRad lat) * Real.sin (degToRad lon) : ℝ) : ℂ) * Complex.I
          = (Real.cos (degToRad lat) : ℂ)
            * (Complex.cos (degToRad lon) + Complex.sin (degToRad lon) * Complex.I) := by
        push_cast [← Complex.ofReal_cos, ← Complex.ofReal_sin]
        ring
      rw [hre]
      exact Complex.arg_mul_cos_add_sin_mul_I hcos ⟨hlon1, le_of_lt hlon2⟩
    rw [harg]
    rw [radToDeg, degToRad]
    field_simp
    ring

/-! ## Claims -/

/-- Claim C1, counterexample: at latitude 0 and longitude 90 the forward
normal formula followed by getLatLong returns longitude -90, which differs
from the original longitude 90 by far more than 1e-6 degrees, so the stated
round trip fails. -/
theorem roundtrip_identity_cex :
    getLatLong (normalFromGeo 0 90) = (some 0, -90) ∧ (1e-6 : ℝ) < |(-90 : ℝ) - 90| := by
  constructor
  · exact getLatLong_normalFromGeo 0 90 (by norm_num) (by norm_num) (by norm_num) (by norm_num)
  · norm_num

/-- Claim C1, amended: for every latitude strictly between -90 and 90 degrees
and longitude strictly between -180 and 180 degrees, converting to a unit
vector via the normal formula of step 1 of section 4.1 and applying getLatLong
reproduces the latitude exactly and returns the negation of the longitude
(exactly, hence within 1e-6 degrees of latitude and of minus the longitude). -/
theorem roundtrip_negates_longitude (lat lon : ℝ) (h1 : -90 < lat) (h2 : lat < 90)
    (h3 : -180 < lon) (h4 : lon < 180) :
    getLatLong (normalFromGeo lat lon) = (some lat, -lon) :=
  getLatLong_normalFromGeo lat lon h1 h2 h3 h4

/-- Witness for claim C1 at latitude 30 and longitude 45. -/
theorem roundtrip_negates_longitude_witness :
    ((-90 : ℝ) < 30 ∧ (30 : ℝ) < 90 ∧ (-180 : ℝ) < 45 ∧ (45 : ℝ) < 180) ∧
      getLatLong (normalFromGeo 30 45) = (some 30, -45) :=
  ⟨by norm_num,
    roundtrip_negates_longitude 30 45 (by norm_num) (by norm_num) (by norm_num) (by norm_num)⟩

/-- Claim C2: for every cube-surface point (x, y, z) with all coordinates in
[-1, 1] and at least one coordinate equal to 1 or -1, the remapped position of
mapCubeToSphere, computed from the pre-remap coordinates in all three
components, has squared Euclidean norm exactly 1 in real arithmetic. -/
theorem sphere_vertex_norm_one (x y z : ℝ) (hx : |x| ≤ 1) (hy : |y| ≤ 1) (hz : |z| ≤ 1)
    (hface : x = 1 ∨ x = -1 ∨ y = 1 ∨ y = -1 ∨ z = 1 ∨ z = -1) :
    (mapCubeToSphere x y z).1 ^ 2 + (mapCubeToSphere x y z).2.1 ^ 2
      + (mapCubeToSphere x y z).2.2 ^ 2 = 1 := by
  have hx2 : x * x ≤ 1 := by nlinarith [abs_le.1 hx]
  have hy2 : y * y ≤ 1 := by nlinarith [abs_le.1 hy]
  have hz2 : z * z ≤ 1 := by nlinarith [abs_le.1 hz]
  have hrx : (0 : ℝ) ≤ 1 - y * y / 2 - z * z / 2 + y * y * (z * z) / 3 := by
    nlinarith [mul_self_nonneg y, mul_self_nonneg z]
  have hry : (0 : ℝ) ≤ 1 - z * z / 2 - x * x / 2 + z * z * (x * x) / 3 := by
    nlinarith [mul_self_nonneg z, mul_self_nonneg x]
  have hrz : (0 : ℝ) ≤ 1 - x * x / 2 - y * y / 2 + x * x * (y * y) / 3 := by
    nlinarith [mul_self_nonneg x, mul_self_nonneg y]
  unfold mapCubeToSphere
  simp only
  rw [mul_pow, mul_pow, mul_pow, Real.sq_sqrt hrx, Real.sq_sqrt hry, Real.sq_sqrt hrz]
  have hone : x * x = 1 ∨ y * y = 1 ∨ z * z = 1 := by
    rcases hface with h | h | h | h | h | h <;> subst h <;> norm_num
  rcases hone with h | h | h <;> nlinarith [h]

/-- Witness for claim C2 at the face vertex (1, 0, 0). -/
theorem sphere_vertex_norm_one_witness :
    (|(1 : ℝ)| ≤ 1 ∧ |(0 : ℝ)| ≤ 1 ∧
      ((1 : ℝ) = 1 ∨ (1 : ℝ) = -1 ∨ (0 : ℝ) = 1 ∨ (0 : ℝ) = -1 ∨ (0 : ℝ) = 1 ∨ (0 : ℝ) = -1)) ∧
      (mapCubeToSphere 1 0 0).1 ^ 2 + (mapCubeToSphere 1 0 0).2.1 ^ 2
        + (mapCubeToSphere 1 0 0).2.2 ^ 2 = 1 :=
  ⟨⟨by norm_num, by norm_num, Or.inl rfl⟩,
    sphere_vertex_norm_one 1 0 0 (by norm_num) (by norm_num) (by norm_num) (Or.inl rfl)⟩

/-- Claim C3: the claim states that wrapDegrees always lands in the interval
from -180 (excluded) to 180 (included); this theorem evaluates the code at the
failing input -270, on which the JavaScript remainder keeps the sign of the
dividend, so wrapDegrees returns -270, outside that interval (and outside the
[-180, 180] promised by the doc comment of the function itself). -/
theorem wrapDegrees_escapes_range :
    wrapDegrees (-270) = -270 ∧ ¬((-270 : ℝ) ∈ Set.Ioc (-180 : ℝ) 180) := by
  constructor
  · have ht : jsTrunc ((-270 : ℝ) / 360) = 0 := by
      unfold jsTrunc
      norm_num
    have hr : jsRem (-270 : ℝ) 360 = -270 := by
      rw [jsRem, ht]
      norm_num
    rw [wrapDegrees, hr]
    norm_num
  · simp only [Set.mem_Ioc]
    norm_num

/-- Claim C4, counterexample: at longitude -190 the normalization of
calculateCameraOrientation returns -190 itself, because the JavaScript
remainder of the negative number -10 by 360 is -10; the result is not in the
interval from -180 (excluded) to 180 (included), so the claimed wrap into that
interval fails. -/
theorem wrapLon_out_of_range_cex :
    wrapLon (-190) = -190 ∧ ¬((-190 : ℝ) ∈ Set.Ioc (-180 : ℝ) 180) := by
  constructor
  · have ht : jsTrunc (((-190 : ℝ) + 180) / 360) = 0 := by
      unfold jsTrunc
      norm_num
    rw [wrapLon, jsRem, ht]
    norm_num
  · simp only [Set.mem_Ioc]
    norm_num

/-- Claim C4, amended: calculateCameraOrientation first clamps its latitude
argument into [-90, 90] (leaving in-range latitudes unchanged) and, for every
longitude argument at least -180, replaces the longitude by the value in the
half-open interval [-180, 180) that is congruent to it modulo 360; for
longitudes below -180 the JavaScript remainder leaves the value below -180
instead of wrapping it. -/
theorem camera_input_normalization (lat lon : ℝ) (h : -180 ≤ lon) :
    clampLat lat ∈ Set.Icc (-90 : ℝ) 90 ∧
      (lat ∈ Set.Icc (-90 : ℝ) 90 → clampLat lat = lat) ∧
      wrapLon lon ∈ Set.Ico (-180 : ℝ) 180 ∧
      ∃ k : ℤ, wrapLon lon = lon - 360 * k := by
  have hx : (0 : ℝ) ≤ (lon + 180) / 360 := div_nonneg (by linarith) (by norm_num)
  have ht : jsTrunc ((lon + 180) / 360) = ⌊(lon + 180) / 360⌋ := by
    rw [jsTrunc, if_pos hx]
  have h1 : ((⌊(lon + 180) / 360⌋ : ℤ) : ℝ) * 360 ≤ lon + 180 :=
    (le_div_iff₀ (by norm_num : (0 : ℝ) < 360)).1 (Int.floor_le _)
  have h2 : lon + 180 < (((⌊(lon + 180) / 360⌋ : ℤ) : ℝ) + 1) * 360 :=
    (div_lt_iff₀ (by norm_num : (0 : ℝ) < 360)).1 (Int.lt_floor_add_one _)
  refine ⟨⟨le_max_left _ _, max_le (by norm_num) (min_le_left _ _)⟩, ?_, ?_, ?_⟩
  · rintro ⟨ha, hb⟩
    rw [clampLat, min_eq_right hb, max_eq_right ha]
  · rw [Set.mem_Ico, wrapLon, jsRem, ht]
    constructor <;> nlinarith
  · exact ⟨⌊(lon + 180) / 360⌋, by rw [wrapLon, jsRem, ht]; ring⟩

/-- Witness for claim C4 at latitude 100 and longitude 190. -/
theorem camera_input_normalization_witness :
    ((-180 : ℝ) ≤ 190) ∧
      (clampLat 100 ∈ Set.Icc (-90 : ℝ) 90 ∧
        ((100 : ℝ) ∈ Set.Icc (-90 : ℝ) 90 → clampLat 100 = 100) ∧
        wrapLon 190 ∈ Set.Ico (-180 : ℝ) 180 ∧
        ∃ k : ℤ, wrapLon (190 : ℝ) = 190 - 360 * k) :=
  ⟨by norm_num, camera_input_normalization 100 190 (by norm_num)⟩

/-- Claim C5: calculateCameraOrientation returns defined (non-NaN) yaw, pitch
and roll both at (0, 0) and at (89.99, 0); in the model a NaN anywhere in the
pipeline would make the result none. -/
theorem camera_orientation_finite :
    (calculateCameraOrientation 0 0).isSome = true ∧
      (calculateCameraOrientation (89.99 : ℝ) 0).isSome = true :=
  ⟨camera_isSome 0 0, camera_isSome (89.99 : ℝ) 0⟩

/-- Claim C6: for every list of cube vertices, the vertex loop of
createSphereFromCube stores in the originalPosition attribute exactly the
pre-deformation cube coordinates, and the remap rewrites only the position
attribute, which becomes the pointwise cube-to-sphere image of the input. -/
theorem originalPosition_preserved (ps : List (ℝ × ℝ × ℝ)) :
    (processVertices ps).2 = ps ∧
      (processVertices ps).1 = ps.map fun p => mapCubeToSphere p.1 p.2.1 p.2.2 := by
  induction ps with
  | nil => simp [processVertices]
  | cons head tail ih =>
    obtain ⟨x, y, z⟩ := head
    simp [processVertices, ih.1, ih.2]

/-- Claim C7: dateToJulianDate applied to the UTC instant
2000-01-01T12:00:00Z returns exactly 2451545, so subtracting the J2000 epoch
constant 2451545.0 gives exactly zero. -/
theorem dateToJulianDate_j2000 :
    dateToJulianDate 2000 1 1 12 0 0 = 2451545 ∧
      dateToJulianDate 2000 1 1 12 0 0 - 2451545 = 0 := by
  have h : dateToJulianDate 2000 1 1 12 0 0 = 2451545 := by
    unfold dateToJulianDate
    norm_num
  exact ⟨h, by rw [h]; ring⟩

/-- Claim C8: wrapDegrees is idempotent on every real input, because its
output always lies strictly between -360 and 360 (where the JavaScript
remainder by 360 is the identity) and never exceeds 180. -/
theorem wrapDegrees_idem (x : ℝ) : wrapDegrees (wrapDegrees x) = wrapDegrees x := by
  obtain ⟨h1, h2⟩ := wrapDegrees_mem x
  conv_lhs => rw [wrapDegrees, jsRem_360_self h1 (by linarith)]
  rw [if_neg (not_lt.2 h2)]

/-- Claim C9: for every number of days d since J2000, the sub-solar latitude
computed by calculateSunPosition is bounded in magnitude by the magnitude of
the mean obliquity e = 23.439 - 0.00000036 * d for that date, because the
declination is arcsin of sin(e) times sin(l). -/
theorem sunLatitude_le_obliquity (d : ℝ) : |sunLatitude d| ≤ |meanObliquity d| := by
  rw [sunLatitude, sunDeclination]
  exact radToDeg_arcsin_le (meanObliquity d) (sunEclipticLongitude d)

/-- Claim C10: getLatLong does not clamp the y component of its input; on the
point (0, 1 + 1e-7, 0), whose y component exceeds 1 by a float-roundoff-sized
amount, the asin domain overflow is reached and the returned latitude is NaN
(none in the model). -/
theorem getLatLong_asin_overflow : (getLatLong ⟨0, 1 + 1e-7, 0⟩).1 = none := by
  simp only [getLatLong, jsAsin]
  rw [if_pos]
  · rfl
  · right
    norm_num

end GlobeNav
